import Mathlib

/-!
Verification of the react-plaid-link web3 core against its specification.

Shallow embedding of the two source modules:
  * `src/web3/loadScript.ts` — the process-wide script-injection registry,
    modelled as an explicit state machine (`LoaderState`, `loadScriptCall`,
    `runLoader`, events) over an abstract document.
  * `src/web3/web3-react.ts` — the `PlaidWalletOnboard` connector adapter:
    `parseChainId`, the `activate` / `connectEagerly` promise chains (modelled
    as functions of an environment fixing the outcome of every asynchronous
    stage, together with a log of calls into the action-reporting interface),
    `isomorphicInitialize`, the `setProvider` event wiring, `deactivate`
    and `watchAsset`.

JavaScript specifics are modelled explicitly: truthiness of strings and rpc
values, `Number.parseInt` (whitespace skip, sign, optional `0x` for radix 16,
longest valid digit prefix, NaN as `none`), synchronous exceptions versus
rejected promises, and the run-to-completion evaluation of a `Promise.all`
argument array (every request in the array is issued synchronously before any
settlement can be observed).
-/

/-- A registry entry of the script loader (`ScriptStatus` in loadScript.ts).
`error` is the recorded `ErrorEvent` (an abstract id), `none` standing for
JavaScript `null`; `scriptEl` is the id of the underlying script element. -/
structure ScriptStatus where
  loading : Bool
  error : Option Nat
  scriptEl : Nat
deriving DecidableEq, Repr

/-- A deferred load trigger: the closure returned by `loadScript` when
`loadImmediate` is not set. It captures `src`, `checkForExisting` and the
`error` const computed at call time (`scriptLoaded` is the constant `false`
and is omitted). -/
structure Trigger where
  src : Option String
  checkForExisting : Bool
  errorLocal : Option Nat
deriving DecidableEq, Repr

/-- The `{loading, error}` snapshot returned to the caller of `loadScript`. -/
structure Snapshot where
  loading : Bool
  error : Option Nat
deriving DecidableEq, Repr

/-- Global state of the script loader: the process-wide `scripts` registry
(URL → status), the document's script elements in document order (element id,
src attribute), a supply of fresh element ids, the log of elements created by
the loader (for the at-most-one-creation invariant), whether we are in a
browsing context (`isBrowser`), the deferred triggers handed out so far, and
the `load`-listener attachments (element id, src captured by the handler). -/
structure LoaderState where
  scripts : String → Option ScriptStatus
  doc : List (Nat × String)
  nextId : Nat
  created : List (Nat × String)
  isBrowser : Bool
  pending : List Trigger
  listeners : List (Nat × String)

/-- JavaScript truthiness of the `src` parameter (`null` and `""` are falsy). -/
def jsTruthySrc : Option String → Bool
  | none => false
  | some s => s != ""

/-- `document.querySelector('script[src="..."]')`: first element in document
order whose src attribute matches. -/
def querySelector (doc : List (Nat × String)) (src : String) : Option Nat :=
  (doc.find? (fun e => e.2 == src)).map Prod.fst

/-- `checkExisting` from loadScript.ts: scan the document for a script element
with the given src; if found, record status `{loading:false, error:null}` for
it in the registry and return that status. -/
def checkExisting (src : String) (st : LoaderState) : LoaderState × Option ScriptStatus :=
  match querySelector st.doc src with
  | some el =>
      let status : ScriptStatus := ⟨false, none, el⟩
      ({ st with scripts := fun u => if u = src then some status else st.scripts u }, some status)
  | none => (st, none)

/-- Attach a `load`/`error` listener pair to an element (the handlers capture
the registry entry for `src`). -/
def addListener (el : Nat) (src : String) (st : LoaderState) : LoaderState :=
  { st with listeners := st.listeners ++ [(el, src)] }

/-- `document.body.appendChild(el)`: moves the element to the end of the
document if already present, otherwise inserts it at the end. -/
def appendChild (el : Nat) (src : String) (st : LoaderState) : LoaderState :=
  { st with doc := st.doc.filter (fun e => e.1 != el) ++ [(el, src)] }

/-- The element-creation branch of the loader: `document.createElement`,
set `src`, register `{loading:true, error:null, scriptEl}` in the registry
(synchronously, before listeners and insertion), attach listeners, append. -/
def createAndInsert (src : String) (st : LoaderState) : LoaderState :=
  let el := st.nextId
  let st1 : LoaderState :=
    { st with
      scripts := fun u => if u = src then some ⟨true, none, el⟩ else st.scripts u
      nextId := st.nextId + 1
      created := (el, src) :: st.created }
  appendChild el src (addListener el src st1)

/-- The `loader` closure of loadScript.ts. Guard: no-op outside a browsing
context, without a src, or when the captured `error` const was set
(`scriptLoaded` is constantly false). Otherwise re-read the registry, re-adopt
an existing element when `checkForExisting` is set, else create and register a
new element; in every live branch attach listeners and append the element. -/
def runLoader (tr : Trigger) (st : LoaderState) : LoaderState :=
  match tr.src with
  | none => st
  | some src =>
      if ¬ st.isBrowser ∨ src = "" ∨ tr.errorLocal ≠ none then st
      else
        match st.scripts src with
        | some status => appendChild status.scriptEl src (addListener status.scriptEl src st)
        | none =>
            if tr.checkForExisting then
              match checkExisting src st with
              | (st1, some status) => appendChild status.scriptEl src (addListener status.scriptEl src st1)
              | (_, none) => createAndInsert src st
            else createAndInsert src st

/-- The opening lookup of `loadScript`: `status = src ? scripts[src] :
undefined`, then `if (!status && checkForExisting && src && isBrowser)
status = checkExisting(src)`. Returns the (possibly extended) state and the
resulting status. -/
def lookupOrAdopt : Option String → Bool → LoaderState → LoaderState × Option ScriptStatus
  | none, _, st => (st, none)
  | some s, checkForExisting, st =>
      match (if s != "" then st.scripts s else none) with
      | some s0 => (st, some s0)
      | none =>
          if checkForExisting && (s != "") && st.isBrowser then checkExisting s st
          else (st, none)

/-- `loadScript(params, callback)`: look up the registry (for a truthy src),
optionally adopt a pre-existing element, compute the snapshot
(`loading = status?.loading || Boolean(src)`, `error = status?.error || null`),
and either run the loader synchronously (`loadImmediate`) or hand the deferred
trigger back. Returns (state, snapshot, optional trigger). -/
def loadScriptCall (src : Option String) (checkForExisting loadImmediate : Bool)
    (st : LoaderState) : LoaderState × Snapshot × Option Trigger :=
  let stepA : LoaderState × Option ScriptStatus := lookupOrAdopt src checkForExisting st
  let st1 := stepA.1
  let status1 := stepA.2
  let loading : Bool := (match status1 with | some s0 => s0.loading | none => false) || jsTruthySrc src
  let error : Option Nat := match status1 with | some s0 => s0.error | none => none
  let tr : Trigger := ⟨src, checkForExisting, error⟩
  if loadImmediate then (runLoader tr st1, ⟨loading, error⟩, none)
  else (st1, ⟨loading, error⟩, some tr)

/-- Observable operations on the loader within one page lifetime: a
`loadScript` call, invoking a previously returned deferred trigger, and the
`load` / `error` events firing on an element. -/
inductive LoaderOp where
  | call (src : Option String) (checkForExisting loadImmediate : Bool)
  | trig (i : Nat)
  | fireLoad (el : Nat)
  | fireError (el : Nat)

/-- One step of the loader state machine. `fireLoad` runs every `handleLoad`
attached to the element: each sets its captured registry entry's `loading` to
false (and invokes the caller's callback). `fireError` only invokes callbacks
and touches neither the registry nor the document. -/
def stepOp (op : LoaderOp) (st : LoaderState) : LoaderState :=
  match op with
  | .call src cfe li =>
      match loadScriptCall src cfe li st with
      | (st', _, some tr) => { st' with pending := st'.pending ++ [tr] }
      | (st', _, none) => st'
  | .trig i =>
      match st.pending.get? i with
      | some tr => runLoader tr st
      | none => st
  | .fireLoad el =>
      { st with scripts := fun u =>
          match st.scripts u with
          | some s0 => if (el, u) ∈ st.listeners then some ⟨false, s0.error, s0.scriptEl⟩ else some s0
          | none => none }
  | .fireError _ => st

/-- Run a sequence of loader operations. -/
def runOps (ops : List LoaderOp) (st : LoaderState) : LoaderState :=
  ops.foldl (fun s op => stepOp op s) st

/-- Initial loader state at the start of a page lifetime: empty registry, a
given set of pre-existing (foreign) script elements, no creations yet. -/
def initLoaderState (doc0 : List (Nat × String)) (nextId0 : Nat) (browser : Bool) : LoaderState :=
  { scripts := fun _ => none
    doc := doc0
    nextId := nextId0
    created := []
    isBrowser := browser
    pending := []
    listeners := [] }

/-- Number of elements the loader has created for a given URL. -/
def countCreated (st : LoaderState) (url : String) : Nat :=
  (st.created.filter (fun e => e.2 == url)).length

/-! ## Chain-id parsing (`parseChainId` in web3-react.ts) -/

/-- The input to `parseChainId`: a JavaScript `string | number` (chain ids are
integral in practice, so the number case is modelled as an integer). -/
inductive ChainInput where
  | num (n : Int)
  | str (s : String)
deriving DecidableEq, Repr

/-- `chainId.startsWith('0x')` for the literal prefix `"0x"`. -/
def jsStartsWith0x (s : String) : Bool :=
  match s.data with
  | '0' :: 'x' :: _ => true
  | _ => false

/-- The value of a character as a digit, as `Number.parseInt` reads it
(`0`-`9`, then letters case-insensitively). -/
def digitVal (c : Char) : Option Nat :=
  if '0' ≤ c ∧ c ≤ '9' then some (c.toNat - '0'.toNat)
  else if 'a' ≤ c ∧ c ≤ 'z' then some (c.toNat - 'a'.toNat + 10)
  else if 'A' ≤ c ∧ c ≤ 'Z' then some (c.toNat - 'A'.toNat + 10)
  else none

/-- Longest prefix of valid digits for the given radix, as digit values. -/
def takeDigits (radix : Nat) : List Char → List Nat
  | [] => []
  | c :: cs =>
      match digitVal c with
      | some d => if d < radix then d :: takeDigits radix cs else []
      | none => []

/-- Leading whitespace skipped by `Number.parseInt`. -/
def jsWhitespace (c : Char) : Bool :=
  c == ' ' || c == '\t' || c == '\n' || c == '\r'

/-- `Number.parseInt(s, radix)`: skip leading whitespace, read an optional
sign, strip an optional `0x`/`0X` when the radix is 16, then take the longest
prefix of valid digits; no digits gives NaN (modelled as `none`). -/
def jsParseInt (s : String) (radix : Nat) : Option Int :=
  let cs0 := s.data.dropWhile jsWhitespace
  let neg : Bool := cs0.head? == some '-'
  let hasSign : Bool := cs0.head? == some '-' || cs0.head? == some '+'
  let cs1 := if hasSign then cs0.tail else cs0
  let strip : Bool := radix == 16 && (cs1.take 2 == ['0', 'x'] || cs1.take 2 == ['0', 'X'])
  let cs2 := if strip then cs1.drop 2 else cs1
  let ds := takeDigits radix cs2
  if ds.isEmpty then none
  else some ((if neg then (-1 : Int) else 1) * Int.ofNat (ds.foldl (fun acc d => acc * radix + d) 0))

/-- `parseChainId` from web3-react.ts: a number is returned unchanged; a
string is parsed with `Number.parseInt`, radix 16 when it starts with `"0x"`
and radix 10 otherwise. `none` is NaN. -/
def parseChainId : ChainInput → Option Int
  | .num n => some n
  | .str s => jsParseInt s (if jsStartsWith0x s then 16 else 10)

/-- Specification-side: the (lower-case) character of one hexadecimal or
decimal digit value. -/
def hexChar (d : Nat) : Char :=
  if d < 10 then Char.ofNat ('0'.toNat + d) else Char.ofNat ('a'.toNat + (d - 10))

/-- Specification-side: the character of one decimal digit value. -/
def decChar (d : Nat) : Char :=
  Char.ofNat ('0'.toNat + d)

/-- Specification-side: the numeric value of a big-endian digit string in the
given base. -/
def specBaseValue (base : Nat) (ds : List Nat) : Nat :=
  ds.foldl (fun acc d => acc * base + d) 0

/-! ## Errors, the action-reporting interface, and the connect chains -/

/-- A JavaScript error value: either an `Error` constructed by the adapter
with a message, or an error value originating outside the adapter (script
load failure, onboarding exit, provider rejection), abstracted by an id. -/
inductive JsErr where
  | jsError (msg : String)
  | external (id : Nat)
deriving DecidableEq, Repr

/-- A call into the external action-reporting interface (`this.actions`). -/
inductive ActionEv where
  | startActivation
  | cancelActivation
  | update (chainId : Option (Option Int)) (accounts : Option (List String))
  | resetState
deriving DecidableEq, Repr

deriving instance DecidableEq for Except

/-- Environment fixing the outcome of every asynchronous stage of one
`activate()` execution: the initialization future, the onboarding flow
(`onSuccess` versus `onExit`; the provider object itself carries no data used
afterwards), and the provider's responses to `eth_accounts` / `eth_chainId`. -/
structure ConnectEnv where
  initOutcome : Except JsErr Unit
  onboardOutcome : Except JsErr Unit
  accountsResp : Except JsErr (List String)
  chainResp : Except JsErr ChainInput
deriving DecidableEq, Repr

/-- `Promise.all` on a two-element array, once both requests are in flight:
fulfills with the pair when both fulfil, otherwise rejects (with the first
component's rejection when it rejects, else the second's). -/
def promiseAll2 {α β : Type} : Except JsErr α → Except JsErr β → Except JsErr (α × β)
  | .error e, _ => .error e
  | .ok _, .error e => .error e
  | .ok a, .ok b => .ok (a, b)

/-- The result of the promise chain of `activate()` before the final
`.catch`: initialization, then onboarding, then (after `setProvider`) the
accounts/chain-id queries; zero accounts throw `'No accounts returned'`;
otherwise the arguments passed to `actions.update`. -/
def activateResult (env : ConnectEnv) : Except JsErr (Option Int × List String) := do
  let _ ← env.initOutcome
  let _ ← env.onboardOutcome
  let (accounts, chainId) ← promiseAll2 env.accountsResp env.chainResp
  if accounts.length = 0 then Except.error (JsErr.jsError "No accounts returned")
  else Except.ok (parseChainId chainId, accounts)

/-- `activate()`: `startActivation` is called at entry; on success the chain
calls `actions.update({chainId, accounts})`; the final `.catch` calls the
cancellation handle and re-throws. Returns the sequence of calls into the
action-reporting interface and the settled outcome. -/
def activate (env : ConnectEnv) : List ActionEv × Except JsErr Unit :=
  match activateResult env with
  | .ok (c, accts) =>
      ([ActionEv.startActivation, ActionEv.update (some c) (some accts)], .ok ())
  | .error e =>
      ([ActionEv.startActivation, ActionEv.cancelActivation], .error e)

/-- Environment for one `connectEagerly()` execution:
`getCurrentEthereumProvider` may reject or resolve with `null` (`none`) or a
provider; `isProviderActive` may reject or report the connection state; then
the same accounts/chain stage as `activate`. -/
structure EagerEnv where
  initOutcome : Except JsErr Unit
  currentProvider : Except JsErr (Option Unit)
  isActive : Except JsErr Bool
  accountsResp : Except JsErr (List String)
  chainResp : Except JsErr ChainInput
deriving DecidableEq, Repr

/-- The result of the promise chain of `connectEagerly()` before the final
`.catch`: initialization, provider lookup (`null` throws
`'No existing connection'`), activity check (inactive throws the same),
`setProvider`, then the accounts/chain stage identical to `activate`. -/
def connectEagerlyResult (env : EagerEnv) : Except JsErr (Option Int × List String) := do
  let _ ← env.initOutcome
  let p ← env.currentProvider
  match p with
  | none => Except.error (JsErr.jsError "No existing connection")
  | some _ => do
      let connected ← env.isActive
      if ¬ connected then Except.error (JsErr.jsError "No existing connection")
      else do
        let (accounts, chainId) ← promiseAll2 env.accountsResp env.chainResp
        if accounts.length = 0 then Except.error (JsErr.jsError "No accounts returned")
        else Except.ok (parseChainId chainId, accounts)

/-- `connectEagerly()`: same activation-notification discipline as
`activate()`. -/
def connectEagerly (env : EagerEnv) : List ActionEv × Except JsErr Unit :=
  match connectEagerlyResult env with
  | .ok (c, accts) =>
      ([ActionEv.startActivation, ActionEv.update (some c) (some accts)], .ok ())
  | .error e =>
      ([ActionEv.startActivation, ActionEv.cancelActivation], .error e)

/-- Whether the action-reporting interface is left in the "connecting" state
after a sequence of calls: `startActivation` enters it, invoking the
cancellation handle leaves it. -/
def connectingAfter (log : List ActionEv) : Bool :=
  log.foldl
    (fun c ev =>
      match ev with
      | ActionEv.startActivation => true
      | ActionEv.cancelActivation => false
      | _ => c) false

/-- Whether an `Except` outcome is a failure. -/
def isErr {α : Type} : Except JsErr α → Bool
  | .error _ => true
  | .ok _ => false

/-! ## Issuance order of the provider requests (accounts/chain stage) -/

/-- Observable provider-request events: a request of the given method being
issued, and its result settling. -/
inductive ReqEv where
  | issued (method : String)
  | settled (method : String)
deriving DecidableEq, Repr

/-- Evaluating the argument array of `Promise.all`: each element is a call
`provider.request({method})`, which issues the request synchronously; the
array is evaluated left to right. -/
def promiseAllIssueTrace (methods : List String) : List ReqEv :=
  methods.map ReqEv.issued

/-- The provider-interaction trace of awaiting `Promise.all` over a request
array under JavaScript run-to-completion: every request in the array is issued
during the synchronous evaluation of the array literal, and settlements (in
the order the provider settles them) are observed only afterwards. -/
def promiseAllTrace (methods : List String) (settleOrder : List String) : List ReqEv :=
  promiseAllIssueTrace methods ++ settleOrder.map ReqEv.settled

/-- The request array of the accounts/chain stage of `activate()`
(web3-react.ts lines 59-61): `eth_accounts` first, `eth_chainId` second. -/
def activateRequestMethods : List String :=
  ["eth_accounts", "eth_chainId"]

/-- The request array of the accounts/chain stage of `connectEagerly()`
(web3-react.ts lines 92-94): identical to `activate`. -/
def eagerRequestMethods : List String :=
  ["eth_accounts", "eth_chainId"]

/-- The trace of the accounts/chain stage of `activate()` for a given
settlement order of the provider. -/
def activateStageTrace (settleOrder : List String) : List ReqEv :=
  promiseAllTrace activateRequestMethods settleOrder

/-- The trace of the accounts/chain stage of `connectEagerly()` for a given
settlement order of the provider. -/
def eagerStageTrace (settleOrder : List String) : List ReqEv :=
  promiseAllTrace eagerRequestMethods settleOrder

/-- The serial ordering the specification asserts: some settlement of
`eth_accounts` occurs strictly before some issuance of `eth_chainId`. -/
def serialAccountsFirst (t : List ReqEv) : Prop :=
  ∃ j : Fin t.length, ∃ k : Fin t.length,
    j.val < k.val ∧ t.get j = ReqEv.settled "eth_accounts" ∧ t.get k = ReqEv.issued "eth_chainId"

instance (t : List ReqEv) : Decidable (serialAccountsFirst t) := by
  unfold serialAccountsFirst; infer_instance

/-- The given method has been issued among the first `n` events. -/
def issuedBefore (t : List ReqEv) (n : Nat) (m : String) : Bool :=
  (t.take n).any (fun e => e == ReqEv.issued m)

/-- The given method has settled among the first `n` events. -/
def settledBefore (t : List ReqEv) (n : Nat) (m : String) : Bool :=
  (t.take n).any (fun e => e == ReqEv.settled m)

/-- Both requests are in flight simultaneously at some point of the trace:
at some position both have been issued and neither has settled. -/
def bothInFlightSomewhere (t : List ReqEv) : Prop :=
  ∃ n : Fin (t.length + 1),
    issuedBefore t n.val "eth_accounts" = true ∧ issuedBefore t n.val "eth_chainId" = true ∧
    settledBefore t n.val "eth_accounts" = false ∧ settledBefore t n.val "eth_chainId" = false

instance (t : List ReqEv) : Decidable (bothInFlightSomewhere t) := by
  unfold bothInFlightSomewhere; infer_instance

/-! ## The cached initialization future (`isomorphicInitialize`) -/

/-- The observable state of a JavaScript promise. -/
inductive FutureState where
  | pending
  | resolvedU
  | rejected (e : JsErr)
deriving DecidableEq, Repr

/-- The adapter fields relevant to initialization: the cached
`eagerConnection` future and a count of how many times the script-load /
SDK-factory sequence has been started. -/
structure InitState where
  eagerConnection : Option FutureState
  loadSequencesStarted : Nat
deriving DecidableEq, Repr

/-- `isomorphicInitialize()`: if `this.eagerConnection` is set, return
`Promise.resolve()` — a fresh, already-resolved future — without touching the
stored future; otherwise create the future (starting the script-load /
SDK-factory sequence), store it, and return it (still pending). Returns the
new adapter state and the future handed to the caller. -/
def isomorphicInitialize (st : InitState) : InitState × FutureState :=
  match st.eagerConnection with
  | some _ => (st, FutureState.resolvedU)
  | none =>
      ({ eagerConnection := some FutureState.pending
         loadSequencesStarted := st.loadSequencesStarted + 1 },
       FutureState.pending)

/-- The stored initialization future settles (script load and SDK factory
completed, or one of them failed). -/
def settleInit (o : Except JsErr Unit) (st : InitState) : InitState :=
  { st with
    eagerConnection :=
      some (match o with
            | .ok _ => FutureState.resolvedU
            | .error e => FutureState.rejected e) }

/-! ## Provider event wiring (`setProvider`) -/

/-- A provider-emitted event, as subscribed to by `setProvider`. -/
inductive ProviderEvent where
  | connect (chainId : ChainInput)
  | disconnect (error : Nat)
  | chainChanged (chainId : String)
  | accountsChanged (accounts : List String)
deriving DecidableEq, Repr

/-- An observable effect of a provider event handler: a call into the
action-reporting interface, or a call to the adapter's `onError`. -/
inductive HandlerEv where
  | action (ev : ActionEv)
  | onErrorCalled (error : Nat)
deriving DecidableEq, Repr

/-- The four handlers installed by `setProvider` (web3-react.ts lines
140-160): `connect` and `chainChanged` update the parsed chain id;
`disconnect` resets state and forwards the error to `onError`;
`accountsChanged` resets state on an empty list and updates the accounts
otherwise. -/
def providerEventHandler : ProviderEvent → List HandlerEv
  | .connect c => [HandlerEv.action (ActionEv.update (some (parseChainId c)) none)]
  | .disconnect e => [HandlerEv.action ActionEv.resetState, HandlerEv.onErrorCalled e]
  | .chainChanged s => [HandlerEv.action (ActionEv.update (some (parseChainId (ChainInput.str s))) none)]
  | .accountsChanged accounts =>
      if accounts.length = 0 then [HandlerEv.action ActionEv.resetState]
      else [HandlerEv.action (ActionEv.update none (some accounts))]

/-! ## `watchAsset` and `deactivate` -/

/-- An rpc result value as the adapter inspects it (only truthiness is
used). -/
inductive RpcValue where
  | str (s : String)
  | num (n : Int)
  | boolean (b : Bool)
  | nullv
  | undef
deriving DecidableEq, Repr

/-- JavaScript truthiness of an rpc result value. -/
def jsTruthy : RpcValue → Bool
  | .str s => s != ""
  | .num n => n != 0
  | .boolean b => b
  | .nullv => false
  | .undef => false

/-- The arguments of `watchAsset` (address required, the rest optional). -/
structure WatchAssetArgs where
  address : String
  symbol : Option String
  decimals : Option Nat
  image : Option String
deriving DecidableEq, Repr

/-- The single parameter object of the `wallet_watchAsset` request, with the
fixed asset type and the caller's metadata. -/
structure WatchAssetParam where
  assetType : String
  address : String
  symbol : Option String
  decimals : Option Nat
  image : Option String
deriving DecidableEq, Repr

/-- The observable outcome of calling `watchAsset`: either a synchronous
exception (the function threw before returning a promise), or a returned
promise, recording the issued `wallet_watchAsset` request's parameter and the
settled outcome. -/
inductive WatchAssetOutcome where
  | thrown (e : JsErr)
  | promiseResult (method : String) (param : WatchAssetParam) (result : Except JsErr Bool)
deriving DecidableEq, Repr

/-- Whether the outcome is a returned (possibly rejected) promise rather than
a synchronous exception. -/
def isPromiseOutcome : WatchAssetOutcome → Bool
  | .thrown _ => false
  | .promiseResult _ _ _ => true

/-- `watchAsset`: with no provider set, `throw new Error('No provider')` —
a synchronous exception, since the method is not `async`. Otherwise issue a
`wallet_watchAsset` request with fixed type `"ERC20"` and the given metadata
(`resp` is the provider's settled response to it); a falsy response makes the
returned promise reject with `'Rejected'`, otherwise it fulfils with `true`. -/
def watchAsset (provider : Option Unit) (resp : Except JsErr RpcValue)
    (args : WatchAssetArgs) : WatchAssetOutcome :=
  match provider with
  | none => WatchAssetOutcome.thrown (JsErr.jsError "No provider")
  | some _ =>
      let param : WatchAssetParam :=
        ⟨"ERC20", args.address, args.symbol, args.decimals, args.image⟩
      WatchAssetOutcome.promiseResult "wallet_watchAsset" param
        (match resp with
         | .error e => .error e
         | .ok v => if jsTruthy v then .ok true else .error (JsErr.jsError "Rejected"))

/-- The adapter's own mutable fields relevant to `deactivate` /
`watchAsset`: the active provider and the loaded SDK namespace (abstracted by
ids). -/
structure AdapterFields where
  provider : Option Nat
  plaidWeb3 : Option Nat
deriving DecidableEq, Repr

/-- The external effect of `deactivate`. -/
inductive DeactivateEff where
  | noop
  | disconnectCalled (provider : Nat)
deriving DecidableEq, Repr

/-- `deactivate()`: with no provider or no SDK namespace, resolve immediately;
otherwise call `disconnectEthereumProvider(provider)`. The method body
contains no assignment, so the fields are returned unchanged. -/
def deactivate (st : AdapterFields) : AdapterFields × DeactivateEff :=
  match st.provider, st.plaidWeb3 with
  | some p, some _ => (st, DeactivateEff.disconnectCalled p)
  | _, _ => (st, DeactivateEff.noop)

/-! ## Helper lemmas: chain-id parsing -/

lemma digitVal_hexChar : ∀ d, d < 16 → digitVal (hexChar d) = some d := by decide

lemma digitVal_decChar : ∀ d, d < 10 → digitVal (decChar d) = some d := by decide

lemma hexChar_not_ws : ∀ d, d < 16 → jsWhitespace (hexChar d) = false := by decide

lemma decChar_not_ws : ∀ d, d < 10 → jsWhitespace (decChar d) = false := by decide

lemma hexChar_ne_minus : ∀ d, d < 16 → hexChar d ≠ '-' := by decide

lemma hexChar_ne_plus : ∀ d, d < 16 → hexChar d ≠ '+' := by decide

lemma decChar_ne_x : ∀ d, d < 10 → decChar d ≠ 'x' ∧ decChar d ≠ 'X' := by decide

lemma decChar_ne_minus : ∀ d, d < 10 → decChar d ≠ '-' := by decide

lemma decChar_ne_plus : ∀ d, d < 10 → decChar d ≠ '+' := by decide

lemma takeDigits_map_hexChar :
    ∀ ds : List Nat, (∀ d ∈ ds, d < 16) → takeDigits 16 (ds.map hexChar) = ds := by
  intro ds
  induction ds with
  | nil => intro _; rfl
  | cons d rest ih =>
      intro h
      have hd : d < 16 := h d (List.mem_cons_self d rest)
      have hrest := ih (fun x hx => h x (List.mem_cons_of_mem d hx))
      simp [takeDigits, digitVal_hexChar d hd, hd, hrest]

lemma takeDigits_map_decChar :
    ∀ ds : List Nat, (∀ d ∈ ds, d < 10) → takeDigits 10 (ds.map decChar) = ds := by
  intro ds
  induction ds with
  | nil => intro _; rfl
  | cons d rest ih =>
      intro h
      have hd : d < 10 := h d (List.mem_cons_self d rest)
      have hrest := ih (fun x hx => h x (List.mem_cons_of_mem d hx))
      simp [takeDigits, digitVal_decChar d hd, hd, hrest]

lemma parseChainId_hexString (ds : List Nat) (hne : ds ≠ []) (hlt : ∀ d ∈ ds, d < 16) :
    parseChainId (ChainInput.str ("0x" ++ String.mk (ds.map hexChar))) =
      some (Int.ofNat (specBaseValue 16 ds)) := by
  have hdata : ("0x" ++ String.mk (ds.map hexChar)).data = '0' :: 'x' :: ds.map hexChar := by
    rw [String.data_append]
    rfl
  have h0x : jsStartsWith0x ("0x" ++ String.mk (ds.map hexChar)) = true := by
    simp [jsStartsWith0x, hdata]
  simp only [parseChainId, h0x, if_pos]
  simp only [jsParseInt, hdata]
  simp [List.dropWhile, jsWhitespace, takeDigits_map_hexChar ds hlt, hne, specBaseValue]

lemma parseChainId_decString (ds : List Nat) (hne : ds ≠ []) (hlt : ∀ d ∈ ds, d < 10) :
    parseChainId (ChainInput.str (String.mk (ds.map decChar))) =
      some (Int.ofNat (specBaseValue 10 ds)) := by
  match ds, hne with
  | d :: rest, _ =>
    have hd : d < 10 := hlt d (List.mem_cons_self d rest)
    have h0x : jsStartsWith0x (String.mk ((d :: rest).map decChar)) = false := by
      match rest with
      | [] => simp [jsStartsWith0x]
      | d' :: rest' =>
          have hd' : d' < 10 := hlt d' (List.mem_cons_of_mem d (List.mem_cons_self d' rest'))
          simp [jsStartsWith0x, (decChar_ne_x d' hd').1]
    have htd := takeDigits_map_decChar (d :: rest) hlt
    rw [List.map_cons] at htd
    simp only [parseChainId, h0x, Bool.false_eq_true, if_false]
    simp only [jsParseInt]
    simp [List.dropWhile, decChar_not_ws d hd, decChar_ne_minus d hd, decChar_ne_plus d hd,
      htd, specBaseValue]

/-- C8: chain-id parsing. A numeric input is returned unchanged; a string
beginning with `"0x"` is parsed as hexadecimal (shown for every nonempty
hexadecimal digit string, against the independent base-16 numeral semantics
`specBaseValue`); every all-decimal-digit string is parsed as decimal; and in
particular `"0x1"` parses to 1, `"10"` parses to 10 and the number 5 parses
to 5. -/
theorem parseChainId_correct (n : Int) (ds16 ds10 : List Nat)
    (h16ne : ds16 ≠ []) (h16 : ∀ d ∈ ds16, d < 16)
    (h10ne : ds10 ≠ []) (h10 : ∀ d ∈ ds10, d < 10) :
    parseChainId (ChainInput.num n) = some n
    ∧ parseChainId (ChainInput.str ("0x" ++ String.mk (ds16.map hexChar))) =
        some (Int.ofNat (specBaseValue 16 ds16))
    ∧ parseChainId (ChainInput.str (String.mk (ds10.map decChar))) =
        some (Int.ofNat (specBaseValue 10 ds10))
    ∧ parseChainId (ChainInput.str "0x1") = some 1
    ∧ parseChainId (ChainInput.str "10") = some 10
    ∧ parseChainId (ChainInput.num 5) = some 5 := by
  refine ⟨rfl, parseChainId_hexString ds16 h16ne h16, parseChainId_decString ds10 h10ne h10, ?_, ?_, rfl⟩
  · decide
  · decide

/-- Witness for C8 at concrete inputs: digit strings `[10, 15]` (the string
`"0xaf"`, value 175) and `[4, 2]` (the string `"42"`, value 42), and the three
concrete instances of the claim. -/
theorem parseChainId_correct_witness :
    parseChainId (ChainInput.num 7) = some 7
    ∧ parseChainId (ChainInput.str ("0x" ++ String.mk ([10, 15].map hexChar))) =
        some (Int.ofNat (specBaseValue 16 [10, 15]))
    ∧ parseChainId (ChainInput.str (String.mk ([4, 2].map decChar))) =
        some (Int.ofNat (specBaseValue 10 [4, 2]))
    ∧ parseChainId (ChainInput.str "0x1") = some 1
    ∧ parseChainId (ChainInput.str "10") = some 10
    ∧ parseChainId (ChainInput.num 5) = some 5 :=
  parseChainId_correct 7 [10, 15] [4, 2] (by decide) (by decide) (by decide) (by decide)

/-- C9: the `accountsChanged` handler wired by `setProvider`. An empty new
account list makes the handler call `resetState` on the action-reporting
interface (a disconnect); a nonempty list makes it call `update` with exactly
the new accounts (and no chain id); in neither case is `onError` invoked. -/
theorem accountsChanged_handler_correct :
    providerEventHandler (ProviderEvent.accountsChanged []) = [HandlerEv.action ActionEv.resetState]
    ∧ ∀ (a : String) (rest : List String),
        providerEventHandler (ProviderEvent.accountsChanged (a :: rest)) =
          [HandlerEv.action (ActionEv.update none (some (a :: rest)))] := by
  constructor
  · rfl
  · intro a rest
    rfl

/-- C10: `deactivate` is a frame for the `provider` and `plaidWeb3` fields:
both are unchanged by `deactivate` on every adapter state, and if a provider
was set before `deactivate`, a `watchAsset` call afterwards does not throw the
no-provider error but returns a promise that issues the `wallet_watchAsset`
request. -/
theorem deactivate_preserves_provider (st : AdapterFields) (p : Nat)
    (resp : Except JsErr RpcValue) (args : WatchAssetArgs) (hp : st.provider = some p) :
    (deactivate st).1.provider = st.provider
    ∧ (deactivate st).1.plaidWeb3 = st.plaidWeb3
    ∧ (deactivate st).1.provider = some p
    ∧ isPromiseOutcome
        (watchAsset ((deactivate st).1.provider.map (fun _ => ())) resp args) = true
    ∧ watchAsset ((deactivate st).1.provider.map (fun _ => ())) resp args
        ≠ WatchAssetOutcome.thrown (JsErr.jsError "No provider") := by
  have hfields : (deactivate st).1 = st := by
    unfold deactivate
    rcases h1 : st.provider with _ | q <;> rcases h2 : st.plaidWeb3 with _ | w <;> simp
  rw [hfields, hp]
  refine ⟨rfl, rfl, rfl, rfl, ?_⟩
  simp [watchAsset]

/-- Witness for C10: a concrete adapter state with provider 1 and SDK
namespace 2, a truthy provider response, and default metadata. -/
theorem deactivate_preserves_provider_witness :
    (deactivate ⟨some 1, some 2⟩).1.provider = (⟨some 1, some 2⟩ : AdapterFields).provider
    ∧ (deactivate ⟨some 1, some 2⟩).1.plaidWeb3 = (⟨some 1, some 2⟩ : AdapterFields).plaidWeb3
    ∧ (deactivate ⟨some 1, some 2⟩).1.provider = some 1
    ∧ isPromiseOutcome
        (watchAsset ((deactivate ⟨some 1, some 2⟩).1.provider.map (fun _ => ()))
          (Except.ok (RpcValue.boolean true)) ⟨"0xtoken", none, none, none⟩) = true
    ∧ watchAsset ((deactivate ⟨some 1, some 2⟩).1.provider.map (fun _ => ()))
          (Except.ok (RpcValue.boolean true)) ⟨"0xtoken", none, none, none⟩
        ≠ WatchAssetOutcome.thrown (JsErr.jsError "No provider") :=
  deactivate_preserves_provider ⟨some 1, some 2⟩ 1 (Except.ok (RpcValue.boolean true))
    ⟨"0xtoken", none, none, none⟩ rfl

/-- C7 counterexample: `watchAsset` called with no provider set does not fail
as a rejected operation: the function throws synchronously (the method is not
`async` and `throw new Error('No provider')` runs before any promise is
returned), so the outcome is not a promise at all. -/
theorem watchAsset_no_provider_throws_sync :
    watchAsset none (Except.ok (RpcValue.boolean true)) ⟨"0xtoken", none, none, none⟩ =
      WatchAssetOutcome.thrown (JsErr.jsError "No provider")
    ∧ isPromiseOutcome
        (watchAsset none (Except.ok (RpcValue.boolean true)) ⟨"0xtoken", none, none, none⟩) = false :=
  ⟨rfl, rfl⟩

/-- C7 amended: `watchAsset` fails with the no-provider error — raised as a
synchronous exception, not a rejected promise — when called before any
successful connect has set a provider; when a provider is set it returns a
promise that issues a `wallet_watchAsset` request with fixed type `"ERC20"`
and the given metadata, rejects with the rejection error if the provider's
response is falsy, rejects with the provider's error if the request rejects,
and fulfils with `true` otherwise. -/
theorem watchAsset_correct_amended (args : WatchAssetArgs) (resp : Except JsErr RpcValue)
    (v : RpcValue) (e : JsErr) :
    watchAsset none resp args = WatchAssetOutcome.thrown (JsErr.jsError "No provider")
    ∧ (∃ result, watchAsset (some ()) resp args =
        WatchAssetOutcome.promiseResult "wallet_watchAsset"
          ⟨"ERC20", args.address, args.symbol, args.decimals, args.image⟩ result)
    ∧ (resp = Except.ok v → jsTruthy v = true →
        watchAsset (some ()) resp args =
          WatchAssetOutcome.promiseResult "wallet_watchAsset"
            ⟨"ERC20", args.address, args.symbol, args.decimals, args.image⟩ (Except.ok true))
    ∧ (resp = Except.ok v → jsTruthy v = false →
        watchAsset (some ()) resp args =
          WatchAssetOutcome.promiseResult "wallet_watchAsset"
            ⟨"ERC20", args.address, args.symbol, args.decimals, args.image⟩
            (Except.error (JsErr.jsError "Rejected")))
    ∧ (resp = Except.error e →
        watchAsset (some ()) resp args =
          WatchAssetOutcome.promiseResult "wallet_watchAsset"
            ⟨"ERC20", args.address, args.symbol, args.decimals, args.image⟩
            (Except.error e)) := by
  refine ⟨rfl, ⟨_, rfl⟩, ?_, ?_, ?_⟩
  · intro hr hv
    subst hr
    simp [watchAsset, hv]
  · intro hr hv
    subst hr
    simp [watchAsset, hv]
  · intro hr
    subst hr
    rfl

/-- Witness for C7 (amended): metadata for token `"0xtoken"`, a truthy
response `true`, a falsy response `false`, and a provider-side rejection. -/
theorem watchAsset_correct_amended_witness :
    watchAsset none (Except.ok (RpcValue.boolean true)) ⟨"0xtoken", some "TOK", some 18, none⟩ =
      WatchAssetOutcome.thrown (JsErr.jsError "No provider")
    ∧ watchAsset (some ()) (Except.ok (RpcValue.boolean true)) ⟨"0xtoken", some "TOK", some 18, none⟩ =
        WatchAssetOutcome.promiseResult "wallet_watchAsset"
          ⟨"ERC20", "0xtoken", some "TOK", some 18, none⟩ (Except.ok true)
    ∧ watchAsset (some ()) (Except.ok (RpcValue.boolean false)) ⟨"0xtoken", some "TOK", some 18, none⟩ =
        WatchAssetOutcome.promiseResult "wallet_watchAsset"
          ⟨"ERC20", "0xtoken", some "TOK", some 18, none⟩ (Except.error (JsErr.jsError "Rejected"))
    ∧ watchAsset (some ()) (Except.error (JsErr.external 9)) ⟨"0xtoken", some "TOK", some 18, none⟩ =
        WatchAssetOutcome.promiseResult "wallet_watchAsset"
          ⟨"ERC20", "0xtoken", some "TOK", some 18, none⟩ (Except.error (JsErr.external 9)) :=
  ⟨(watchAsset_correct_amended ⟨"0xtoken", some "TOK", some 18, none⟩ (Except.ok (RpcValue.boolean true))
      (RpcValue.boolean true) (JsErr.external 9)).1,
   (watchAsset_correct_amended ⟨"0xtoken", some "TOK", some 18, none⟩ (Except.ok (RpcValue.boolean true))
      (RpcValue.boolean true) (JsErr.external 9)).2.2.1 rfl rfl,
   (watchAsset_correct_amended ⟨"0xtoken", some "TOK", some 18, none⟩ (Except.ok (RpcValue.boolean false))
      (RpcValue.boolean false) (JsErr.external 9)).2.2.2.1 rfl rfl,
   (watchAsset_correct_amended ⟨"0xtoken", some "TOK", some 18, none⟩ (Except.error (JsErr.external 9))
      (RpcValue.boolean true) (JsErr.external 9)).2.2.2.2 rfl⟩

/-- C2 counterexample: an adapter whose stored initialization future has
rejected. A subsequent call to `isomorphicInitialize` returns an
already-resolved future (`return Promise.resolve()`), which does not share
the stored future's outcome — the claim that every subsequent call awaits the
same outcome as the first future is false. -/
theorem isomorphicInitialize_ignores_stored_outcome :
    (⟨some (FutureState.rejected (JsErr.external 3)), 1⟩ : InitState).eagerConnection =
      some (FutureState.rejected (JsErr.external 3))
    ∧ (isomorphicInitialize ⟨some (FutureState.rejected (JsErr.external 3)), 1⟩).2 =
        FutureState.resolvedU
    ∧ FutureState.resolvedU ≠ FutureState.rejected (JsErr.external 3) :=
  ⟨rfl, rfl, by decide⟩

/-- C2 amended: once the initialization future has been created, every
subsequent call to `isomorphicInitialize` leaves the adapter state unchanged —
in particular it never re-triggers the script-load/SDK-factory sequence — and
returns a fresh, immediately resolved future, regardless of whether the stored
future is pending, resolved or rejected (it does not await the stored
future's outcome). -/
theorem isomorphicInitialize_no_retrigger (st : InitState) (f : FutureState)
    (h : st.eagerConnection = some f) :
    isomorphicInitialize st = (st, FutureState.resolvedU) := by
  unfold isomorphicInitialize
  rw [h]

/-- Witness for C2 (amended): a second call while the first future is still
pending after one started load sequence. -/
theorem isomorphicInitialize_no_retrigger_witness :
    isomorphicInitialize ⟨some FutureState.pending, 1⟩ =
      (⟨some FutureState.pending, 1⟩, FutureState.resolvedU) :=
  isomorphicInitialize_no_retrigger ⟨some FutureState.pending, 1⟩ FutureState.pending rfl

/-- C1: the accounts/chain stage of `activate` and of `connectEagerly`
evaluates `Promise.all` over the two-request array, issuing `eth_accounts`
and then `eth_chainId` synchronously before either result can settle. In the
resulting trace (shown for the provider settling accounts first) no
settlement of `eth_accounts` precedes the issuance of `eth_chainId` — the
serial ordering asserted by the specification fails — and there is a point at
which both requests are in flight concurrently. -/
theorem accounts_chainId_not_serial :
    activateStageTrace ["eth_accounts", "eth_chainId"] =
      [ReqEv.issued "eth_accounts", ReqEv.issued "eth_chainId",
       ReqEv.settled "eth_accounts", ReqEv.settled "eth_chainId"]
    ∧ ¬ serialAccountsFirst (activateStageTrace ["eth_accounts", "eth_chainId"])
    ∧ bothInFlightSomewhere (activateStageTrace ["eth_accounts", "eth_chainId"])
    ∧ eagerStageTrace ["eth_accounts", "eth_chainId"] =
        activateStageTrace ["eth_accounts", "eth_chainId"] := by
  refine ⟨rfl, by decide, by decide, rfl⟩

/-- C5: whenever `activate()` or `connectEagerly()` fails at any stage
(initialization, onboarding or provider lookup, account or chain query, empty
accounts), the `.catch` handler invokes the cancellation handle obtained from
`startActivation` at entry before re-throwing: the calls into the
action-reporting interface are exactly start-then-cancel, and the interface is
not left in the connecting state. -/
theorem activation_cancelled_on_error (envA : ConnectEnv) (envE : EagerEnv) :
    (isErr (activate envA).2 = true →
      (activate envA).1 = [ActionEv.startActivation, ActionEv.cancelActivation]
      ∧ connectingAfter (activate envA).1 = false)
    ∧ (isErr (connectEagerly envE).2 = true →
      (connectEagerly envE).1 = [ActionEv.startActivation, ActionEv.cancelActivation]
      ∧ connectingAfter (connectEagerly envE).1 = false) := by
  constructor
  · intro h
    cases hr : activateResult envA with
    | ok x =>
        exfalso
        obtain ⟨c, accts⟩ := x
        simp [activate, hr, isErr] at h
    | error e =>
        constructor
        · simp [activate, hr]
        · simp [activate, hr, connectingAfter]
  · intro h
    cases hr : connectEagerlyResult envE with
    | ok x =>
        exfalso
        obtain ⟨c, accts⟩ := x
        simp [connectEagerly, hr, isErr] at h
    | error e =>
        constructor
        · simp [connectEagerly, hr]
        · simp [connectEagerly, hr, connectingAfter]

/-- Witness for C5: an `activate` execution failing at initialization and a
`connectEagerly` execution failing at the provider lookup (no existing
connection). -/
theorem activation_cancelled_on_error_witness :
    ((activate ⟨Except.error (JsErr.external 1), Except.ok (),
        Except.ok ["0xabc"], Except.ok (ChainInput.str "0x1")⟩).1 =
      [ActionEv.startActivation, ActionEv.cancelActivation]
     ∧ connectingAfter (activate ⟨Except.error (JsErr.external 1), Except.ok (),
        Except.ok ["0xabc"], Except.ok (ChainInput.str "0x1")⟩).1 = false)
    ∧ ((connectEagerly ⟨Except.ok (), Except.ok none, Except.ok true,
        Except.ok ["0xabc"], Except.ok (ChainInput.str "0x1")⟩).1 =
      [ActionEv.startActivation, ActionEv.cancelActivation]
     ∧ connectingAfter (connectEagerly ⟨Except.ok (), Except.ok none, Except.ok true,
        Except.ok ["0xabc"], Except.ok (ChainInput.str "0x1")⟩).1 = false) :=
  ⟨(activation_cancelled_on_error
      ⟨Except.error (JsErr.external 1), Except.ok (), Except.ok ["0xabc"],
        Except.ok (ChainInput.str "0x1")⟩
      ⟨Except.ok (), Except.ok none, Except.ok true, Except.ok ["0xabc"],
        Except.ok (ChainInput.str "0x1")⟩).1 (by decide),
   (activation_cancelled_on_error
      ⟨Except.error (JsErr.external 1), Except.ok (), Except.ok ["0xabc"],
        Except.ok (ChainInput.str "0x1")⟩
      ⟨Except.ok (), Except.ok none, Except.ok true, Except.ok ["0xabc"],
        Except.ok (ChainInput.str "0x1")⟩).2 (by decide)⟩

/-- C6 counterexample: onboarding succeeds and `eth_accounts` resolves to the
empty list, but `eth_chainId` rejects (with an external provider error 7).
`Promise.all` then rejects with the chain error before the `.then` callback
containing the empty-accounts check ever runs, so the operation fails with the
provider's error and not with the no-accounts error. -/
theorem activate_empty_accounts_chain_error :
    (activate ⟨Except.ok (), Except.ok (), Except.ok [],
        Except.error (JsErr.external 7)⟩).2 = Except.error (JsErr.external 7)
    ∧ (activate ⟨Except.ok (), Except.ok (), Except.ok [],
        Except.error (JsErr.external 7)⟩).2 ≠
        Except.error (JsErr.jsError "No accounts returned") :=
  ⟨rfl, by decide⟩

/-- C6 amended: in every `connect()` execution in which onboarding succeeds,
`eth_accounts` resolves to an empty list and the `eth_chainId` request does
not reject, the operation fails with the no-accounts error; and in every such
execution regardless of the chain-id outcome, `update` is never called and the
previously started activation is cancelled. -/
theorem activate_no_accounts (env : ConnectEnv) (c : ChainInput)
    (hi : env.initOutcome = Except.ok ()) (ho : env.onboardOutcome = Except.ok ())
    (ha : env.accountsResp = Except.ok ([] : List String)) :
    (env.chainResp = Except.ok c →
      (activate env).2 = Except.error (JsErr.jsError "No accounts returned"))
    ∧ (activate env).1 = [ActionEv.startActivation, ActionEv.cancelActivation]
    ∧ (∀ x y, ActionEv.update x y ∉ (activate env).1)
    ∧ ActionEv.cancelActivation ∈ (activate env).1 := by
  obtain ⟨i, o, a, ch⟩ := env
  simp only at hi ho ha
  subst hi
  subst ho
  subst ha
  cases ch with
  | ok c' =>
      refine ⟨fun _ => rfl, rfl, ?_, ?_⟩
      · intro x y hmem
        have hlog : (activate ⟨Except.ok (), Except.ok (), Except.ok [],
            Except.ok c'⟩).1 = [ActionEv.startActivation, ActionEv.cancelActivation] := rfl
        rw [hlog] at hmem
        simp at hmem
      · have hlog : (activate ⟨Except.ok (), Except.ok (), Except.ok [],
            Except.ok c'⟩).1 = [ActionEv.startActivation, ActionEv.cancelActivation] := rfl
        rw [hlog]
        simp
  | error e =>
      refine ⟨fun hc => Except.noConfusion hc, rfl, ?_, ?_⟩
      · intro x y hmem
        have hlog : (activate ⟨Except.ok (), Except.ok (), Except.ok [],
            Except.error e⟩).1 = [ActionEv.startActivation, ActionEv.cancelActivation] := rfl
        rw [hlog] at hmem
        simp at hmem
      · have hlog : (activate ⟨Except.ok (), Except.ok (), Except.ok [],
            Except.error e⟩).1 = [ActionEv.startActivation, ActionEv.cancelActivation] := rfl
        rw [hlog]
        simp

/-- Witness for C6 (amended): onboarding succeeds, accounts resolve empty,
chain id resolves to `"0x1"`; the operation fails with the no-accounts error
and the activation is cancelled. -/
theorem activate_no_accounts_witness :
    (activate ⟨Except.ok (), Except.ok (), Except.ok [],
        Except.ok (ChainInput.str "0x1")⟩).2 =
      Except.error (JsErr.jsError "No accounts returned")
    ∧ ActionEv.cancelActivation ∈
        (activate ⟨Except.ok (), Except.ok (), Except.ok [],
          Except.ok (ChainInput.str "0x1")⟩).1 :=
  ⟨(activate_no_accounts ⟨Except.ok (), Except.ok (), Except.ok [],
      Except.ok (ChainInput.str "0x1")⟩ (ChainInput.str "0x1") rfl rfl rfl).1 rfl,
   (activate_no_accounts ⟨Except.ok (), Except.ok (), Except.ok [],
      Except.ok (ChainInput.str "0x1")⟩ (ChainInput.str "0x1") rfl rfl rfl).2.2.2⟩

/-! ## Helper lemmas: the script loader -/

lemma mem_of_querySelector (doc : List (Nat × String)) (src : String) (el : Nat)
    (hq : querySelector doc src = some el) : (el, src) ∈ doc := by
  unfold querySelector at hq
  cases hf : doc.find? (fun e => e.2 == src) with
  | none => rw [hf] at hq; cases hq
  | some e0 =>
      rw [hf] at hq
      have hmem := List.mem_of_find?_eq_some hf
      have hpred := List.find?_some hf
      simp at hq
      simp only [beq_iff_eq] at hpred
      have he0 : e0 = (el, src) := by
        cases e0
        simp only [Prod.mk.injEq]
        exact ⟨hq, hpred⟩
      rw [he0] at hmem
      exact hmem

/-- C3 counterexample: a script element with the target URL is
already in the document and the registry is empty; the loader with
`checkForExisting=true` adopts it, but the snapshot returned to the caller is
`{loading:true, error:null}` — not `{loading:false, error:null}` as claimed —
because the snapshot's loading flag is `status?.loading || Boolean(src)` and a
URL was supplied. -/
theorem loadScript_adopt_snapshot_not_false :
    (loadScriptCall (some "https://cdn.plaid.com/link/v2/stable/link-initialize.js") true true
      (initLoaderState [(0, "https://cdn.plaid.com/link/v2/stable/link-initialize.js")] 1 true)).2.1 =
      Snapshot.mk true none
    ∧ (loadScriptCall (some "https://cdn.plaid.com/link/v2/stable/link-initialize.js") true true
      (initLoaderState [(0, "https://cdn.plaid.com/link/v2/stable/link-initialize.js")] 1 true)).2.1 ≠
      Snapshot.mk false none := by
  refine ⟨rfl, by decide⟩

/-- C3 amended: whenever a script element with the target URL already exists
in the document and the registry holds no entry for the URL, a loader call
with `checkForExisting=true` (either `loadImmediate` mode) adopts the existing
element — recording `{loading:false, error:null}` for it in the registry,
creating no element and inserting no new element into the document — but the
snapshot it returns to the caller is `{loading:true, error:null}`: its
`loading` flag is optimistically true because a URL was supplied. -/
theorem loadScript_adopts_existing (st : LoaderState) (src : String) (el : Nat) (li : Bool)
    (hb : st.isBrowser = true) (hs : st.scripts src = none)
    (hq : querySelector st.doc src = some el) (hne : src ≠ "") :
    (loadScriptCall (some src) true li st).2.1 = Snapshot.mk true none
    ∧ (loadScriptCall (some src) true li st).1.created = st.created
    ∧ (loadScriptCall (some src) true li st).1.nextId = st.nextId
    ∧ (loadScriptCall (some src) true li st).1.scripts src = some ⟨false, none, el⟩
    ∧ (∀ e ∈ (loadScriptCall (some src) true li st).1.doc, e ∈ st.doc) := by
  have hbne : (src != "") = true := bne_iff_ne.mpr hne
  have hcheck : checkExisting src st =
      ({ st with scripts := fun u => if u = src then some ⟨false, none, el⟩ else st.scripts u },
       some ⟨false, none, el⟩) := by
    unfold checkExisting
    rw [hq]
  cases li with
  | false =>
      have hcall : loadScriptCall (some src) true false st =
          ({ st with scripts := fun u => if u = src then some ⟨false, none, el⟩ else st.scripts u },
           ⟨true, none⟩, some ⟨some src, true, none⟩) := by
        simp [loadScriptCall, lookupOrAdopt, hbne, hs, hb, hcheck, jsTruthySrc]
      rw [hcall]
      exact ⟨rfl, rfl, rfl, by simp, fun e he => he⟩
  | true =>
      refine ⟨?_, ?_, ?_, ?_, ?_⟩
      · simp [loadScriptCall, lookupOrAdopt, hbne, hs, hb, hcheck, jsTruthySrc, runLoader, hne]
      · simp [loadScriptCall, lookupOrAdopt, hbne, hs, hb, hcheck, jsTruthySrc, runLoader, hne,
          appendChild, addListener]
      · simp [loadScriptCall, lookupOrAdopt, hbne, hs, hb, hcheck, jsTruthySrc, runLoader, hne,
          appendChild, addListener]
      · simp [loadScriptCall, lookupOrAdopt, hbne, hs, hb, hcheck, jsTruthySrc, runLoader, hne,
          appendChild, addListener]
      · intro e he
        simp [loadScriptCall, lookupOrAdopt, hbne, hs, hb, hcheck, jsTruthySrc, runLoader, hne,
          appendChild, addListener] at he
        rcases he with ⟨h1, _⟩ | rfl
        · exact h1
        · exact mem_of_querySelector st.doc src el hq

/-- Witness for C3 (amended): a document holding one foreign script element
with the target URL, an empty registry, immediate loading. -/
theorem loadScript_adopts_existing_witness :
    (loadScriptCall (some "u") true true (initLoaderState [(0, "u")] 1 true)).2.1 = Snapshot.mk true none
    ∧ (loadScriptCall (some "u") true true (initLoaderState [(0, "u")] 1 true)).1.created =
        (initLoaderState [(0, "u")] 1 true).created
    ∧ (loadScriptCall (some "u") true true (initLoaderState [(0, "u")] 1 true)).1.nextId =
        (initLoaderState [(0, "u")] 1 true).nextId
    ∧ (loadScriptCall (some "u") true true (initLoaderState [(0, "u")] 1 true)).1.scripts "u" =
        some ⟨false, none, 0⟩
    ∧ (∀ e ∈ (loadScriptCall (some "u") true true (initLoaderState [(0, "u")] 1 true)).1.doc,
        e ∈ (initLoaderState [(0, "u")] 1 true).doc) :=
  loadScript_adopts_existing (initLoaderState [(0, "u")] 1 true) "u" 0 true rfl rfl rfl
    (by decide)

/-- The inductive invariant for the at-most-one-creation property: every URL
has at most one loader-created element, and a URL with no registry entry has
no created element (creation always registers the URL synchronously, and
registry entries are never removed). -/
def LoaderInv (st : LoaderState) : Prop :=
  ∀ url, countCreated st url ≤ 1 ∧ (st.scripts url = none → countCreated st url = 0)

lemma createAndInsert_inv (src : String) (st : LoaderState)
    (h : LoaderInv st) (hnone : st.scripts src = none) :
    LoaderInv (createAndInsert src st) := by
  intro url
  have hcount : countCreated (createAndInsert src st) url =
      (if src == url then countCreated st url + 1 else countCreated st url) := by
    simp only [createAndInsert, countCreated, appendChild, addListener, List.filter_cons]
    by_cases he : src == url
    · simp [he]
    · simp [he]
  have hscripts : (createAndInsert src st).scripts url =
      (if url = src then some ⟨true, none, st.nextId⟩ else st.scripts url) := rfl
  by_cases he : url = src
  · subst he
    have h0 : countCreated st url = 0 := (h url).2 hnone
    constructor
    · rw [hcount]
      simp [h0]
    · intro hn
      rw [hscripts] at hn
      simp at hn
  · constructor
    · rw [hcount]
      have : (src == url) = false := by
        simp [bne, beq_eq_false_iff_ne]
        exact fun hh => he hh.symm
      rw [this]
      simp
      exact (h url).1
    · intro hn
      rw [hscripts] at hn
      rw [if_neg he] at hn
      rw [hcount]
      have : (src == url) = false := by
        simp [beq_eq_false_iff_ne]
        exact fun hh => he hh.symm
      rw [this]
      simp
      exact (h url).2 hn

lemma checkExisting_inv (src : String) (st : LoaderState) (h : LoaderInv st) :
    LoaderInv (checkExisting src st).1 := by
  unfold checkExisting
  cases hq : querySelector st.doc src with
  | none => exact h
  | some el =>
      intro url
      constructor
      · exact (h url).1
      · intro hn
        by_cases he : url = src
        · subst he
          simp at hn
        · simp only [if_neg he] at hn
          exact (h url).2 hn

lemma runLoader_inv (tr : Trigger) (st : LoaderState) (h : LoaderInv st) :
    LoaderInv (runLoader tr st) := by
  obtain ⟨osrc, cfe, errl⟩ := tr
  cases osrc with
  | none => exact h
  | some src =>
      unfold runLoader
      dsimp only
      by_cases hg : ¬st.isBrowser = true ∨ src = "" ∨ errl ≠ none
      · rw [if_pos hg]
        exact h
      · rw [if_neg hg]
        cases hs : st.scripts src with
        | some status => exact h
        | none =>
            cases cfe with
            | false => exact createAndInsert_inv src st h hs
            | true =>
                cases hc : checkExisting src st with
                | mk st1 adopted =>
                    cases adopted with
                    | some status =>
                        have hh := checkExisting_inv src st h
                        rw [hc] at hh
                        exact hh
                    | none => exact createAndInsert_inv src st h hs

lemma lookupOrAdopt_inv (src : Option String) (cfe : Bool) (st : LoaderState)
    (h : LoaderInv st) : LoaderInv (lookupOrAdopt src cfe st).1 := by
  cases src with
  | none => exact h
  | some s =>
      simp only [lookupOrAdopt]
      by_cases hvs : (s != "") = true
      · rw [hvs]
        cases hss : st.scripts s with
        | some st0 => exact h
        | none =>
            by_cases hcond : (cfe && true && st.isBrowser) = true
            · rw [hcond]
              exact checkExisting_inv s st h
            · rw [Bool.not_eq_true] at hcond
              rw [hcond]
              exact h
      · rw [Bool.not_eq_true] at hvs
        rw [hvs]
        simp only [Bool.and_false, Bool.false_and, Bool.false_eq_true, if_false]
        exact h

lemma loadScriptCall_inv (src : Option String) (cfe li : Bool) (st : LoaderState)
    (h : LoaderInv st) : LoaderInv (loadScriptCall src cfe li st).1 := by
  unfold loadScriptCall
  dsimp only
  cases li with
  | false => exact lookupOrAdopt_inv src cfe st h
  | true => exact runLoader_inv _ _ (lookupOrAdopt_inv src cfe st h)

lemma stepOp_inv (op : LoaderOp) (st : LoaderState) (h : LoaderInv st) :
    LoaderInv (stepOp op st) := by
  cases op with
  | call src cfe li =>
      have h' := loadScriptCall_inv src cfe li st h
      unfold stepOp
      dsimp only
      cases hres : loadScriptCall src cfe li st with
      | mk st' rest =>
          rw [hres] at h'
          cases rest with
          | mk snap otr =>
              cases otr with
              | some tr => exact h'
              | none => exact h'
  | trig i =>
      unfold stepOp
      dsimp only
      cases hp : st.pending.get? i with
      | some tr => exact runLoader_inv tr st h
      | none => exact h
  | fireLoad el =>
      intro url
      constructor
      · exact (h url).1
      · intro hn
        unfold stepOp at hn
        dsimp only at hn
        cases hsu : st.scripts url with
        | none => exact (h url).2 hsu
        | some s0 =>
            exfalso
            rw [hsu] at hn
            by_cases hm : (el, url) ∈ st.listeners
            · simp [hm] at hn
            · simp [hm] at hn
  | fireError el => exact h

lemma runOps_inv (ops : List LoaderOp) (st : LoaderState) (h : LoaderInv st) :
    LoaderInv (runOps ops st) := by
  induction ops generalizing st with
  | nil => exact h
  | cons op rest ih => exact ih (stepOp op st) (stepOp_inv op st h)

lemma initLoaderState_inv (doc0 : List (Nat × String)) (nextId0 : Nat) (b : Bool) :
    LoaderInv (initLoaderState doc0 nextId0 b) := by
  intro url
  exact ⟨by simp [countCreated, initLoaderState], fun _ => by simp [countCreated, initLoaderState]⟩

/-- C4: for every page lifetime — any initial document (including foreign
script elements), any browsing-context flag, and any sequence of `loadScript`
calls, deferred-trigger invocations and load/error events — the loader
creates at most one script element per distinct URL; in particular two calls
for the same URL with `checkForExisting=false` never create two elements. -/
theorem at_most_one_script_created_per_url (ops : List LoaderOp)
    (doc0 : List (Nat × String)) (nextId0 : Nat) (b : Bool) (url : String) :
    countCreated (runOps ops (initLoaderState doc0 nextId0 b)) url ≤ 1 :=
  (runOps_inv ops (initLoaderState doc0 nextId0 b) (initLoaderState_inv doc0 nextId0 b) url).1
